import Mathlib

/-!
Verification development for the fixture-line parser and the season
advanced-statistics calculator of the dissertation-one-year-on repository.

Modelling conventions:
* Python floats are modelled as exact rationals (`ℚ`); `round(x, 3)` is
  modelled by `round3`, rounding to the nearest multiple of `1/1000`.
* A Python expression that can raise `ZeroDivisionError` (the spec's
  `ArithmeticDomainError`) is modelled in the `Option` monad through
  `checkedDiv`; `none` represents the raised error.
* A Python list access `xs[i]` that can raise `IndexError` is modelled by
  `xs[i]?` in the `Option` monad.
-/

/-- Round a rational to three decimal places, as `round(x, 3)` does on the
repository's values (ties are irrelevant to every claim proved here). -/
def round3 (x : ℚ) : ℚ := (round (x * 1000) : ℤ) / 1000

/-- Division that is fatal when the denominator is exactly zero, modelling
Python's `ZeroDivisionError` behaviour of `a / b`. -/
def checkedDiv (a b : ℚ) : Option ℚ := if b = 0 then none else some (a / b)

/-- The 23 raw statistical categories of one season row
(`season_statistics.py` field order `G` … `PTS`), as read by
`TeamAdvancedStatistics.__init__`. -/
structure SeasonTotals where
  games : ℚ
  minutes : ℚ
  fieldGoals : ℚ
  fieldGoalAttempts : ℚ
  fieldGoalPercentage : ℚ
  threePointMakes : ℚ
  threePointAttempts : ℚ
  threePointPercentage : ℚ
  twoPointMakes : ℚ
  twoPointAttempts : ℚ
  twoPointPercentage : ℚ
  freeThrows : ℚ
  freeThrowAttempts : ℚ
  freeThrowPercentage : ℚ
  offensiveRebounds : ℚ
  defensiveRebounds : ℚ
  totalRebounds : ℚ
  assists : ℚ
  steals : ℚ
  blocks : ℚ
  turnovers : ℚ
  personalFouls : ℚ
  points : ℚ
deriving DecidableEq

/-- Model of `TeamAdvancedStatistics.__calculate_possessions` (team_advanced_statistics.py,
lines 370-421). -/
def calculatePossessions (t o : SeasonTotals) : Option ℚ := do
  let teamReboundShare ← checkedDiv t.offensiveRebounds
    (t.offensiveRebounds + o.defensiveRebounds)
  let opponentReboundShare ← checkedDiv o.offensiveRebounds
    (o.offensiveRebounds + t.defensiveRebounds)
  pure (round3 (0.5 *
    ((t.fieldGoalAttempts + 0.4 * t.freeThrowAttempts
        - 1.07 * teamReboundShare * (t.fieldGoalAttempts - t.fieldGoals)
        + t.turnovers)
      + (o.fieldGoalAttempts + 0.4 * o.freeThrowAttempts
        - 1.07 * opponentReboundShare * (o.fieldGoalAttempts - o.fieldGoals)
        + o.turnovers))))

/-- Model of `TeamAdvancedStatistics.__calculate_opponent_possessions`
(team_advanced_statistics.py, lines 423-474): the same two sub-expressions
summed in the opposite order. -/
def calculateOpponentPossessions (t o : SeasonTotals) : Option ℚ := do
  let opponentReboundShare ← checkedDiv o.offensiveRebounds
    (o.offensiveRebounds + t.defensiveRebounds)
  let teamReboundShare ← checkedDiv t.offensiveRebounds
    (t.offensiveRebounds + o.defensiveRebounds)
  pure (round3 (0.5 *
    ((o.fieldGoalAttempts + 0.4 * o.freeThrowAttempts
        - 1.07 * opponentReboundShare * (o.fieldGoalAttempts - o.fieldGoals)
        + o.turnovers)
      + (t.fieldGoalAttempts + 0.4 * t.freeThrowAttempts
        - 1.07 * teamReboundShare * (t.fieldGoalAttempts - t.fieldGoals)
        + t.turnovers))))

/-- Model of `TeamAdvancedStatistics.__calculate_offensive_rating` (lines 169-181). -/
def calculateOffensiveRating (t o : SeasonTotals) : Option ℚ := do
  let possessions ← calculatePossessions t o
  let quotient ← checkedDiv t.points possessions
  pure (round3 (quotient * 100))

/-- Model of `TeamAdvancedStatistics.__calculate_defensive_rating` (lines 183-195). -/
def calculateDefensiveRating (t o : SeasonTotals) : Option ℚ := do
  let opponentPossessions ← calculateOpponentPossessions t o
  let quotient ← checkedDiv o.points opponentPossessions
  pure (round3 (quotient * 100))

/-- Model of `TeamAdvancedStatistics.__calculate_net_rating` (lines 197-210): the
difference of the two already-rounded ratings, rounded again. -/
def calculateNetRating (t o : SeasonTotals) : Option ℚ := do
  let offensiveRating ← calculateOffensiveRating t o
  let defensiveRating ← calculateDefensiveRating t o
  pure (round3 (offensiveRating - defensiveRating))

/-- Model of `TeamAdvancedStatistics.__calculate_assist_to_turnover_ratio`
(lines 225-235). -/
def calculateAssistToTurnover (t : SeasonTotals) : Option ℚ :=
  (checkedDiv t.assists t.turnovers).map round3

/-- Model of `TeamAdvancedStatistics.__calculate_turnover_percentage`
(lines 297-317). -/
def calculateTurnoverPercentage (t : SeasonTotals) : Option ℚ :=
  (checkedDiv (100 * t.turnovers)
    (t.fieldGoalAttempts + 0.44 * t.freeThrowAttempts + t.turnovers)).map round3

/-- Model of `TeamAdvancedStatistics.__calculate_true_shooting_attempts`
(lines 340-353): no division, always defined. -/
def calculateTrueShootingAttempts (t : SeasonTotals) : ℚ :=
  round3 (t.fieldGoalAttempts + 0.44 * t.freeThrowAttempts)

/-- Model of `TeamAdvancedStatistics.__calculate_true_shooting_percentage`
(lines 355-368). -/
def calculateTrueShootingPercentage (t : SeasonTotals) : Option ℚ :=
  (checkedDiv t.points (2 * calculateTrueShootingAttempts t)).map
    (fun quotient => round3 (quotient * 100))

/-- A representative season row: 82 games, 8250 points, with plausible
shooting, rebounding and turnover totals. Field order follows the
`SeasonTotals` declaration (`G`, `MP`, `FG`, `FGA`, `FG%`, `3P`, `3PA`,
`3P%`, `2P`, `2PA`, `2P%`, `FT`, `FTA`, `FT%`, `ORB`, `DRB`, `TRB`,
`AST`, `STL`, `BLK`, `TOV`, `PF`, `PTS`). -/
def exampleTeamTotals : SeasonTotals :=
  ⟨82, 3960, 3000, 7000, 3/7, 1000, 3000, 1/3, 2000, 4000, 1/2,
    1250, 2000, 5/8, 1000, 3000, 4000, 2000, 600, 400, 1000, 1500, 8250⟩

/-- The matching opponent season row: 82 games, 8000 points allowed. -/
def exampleOpponentTotals : SeasonTotals :=
  ⟨82, 3960, 2900, 7100, 29/71, 900, 2800, 9/28, 2000, 4300, 20/43,
    1300, 1900, 13/19, 900, 2800, 3700, 1900, 550, 350, 1100, 1600, 8000⟩

/-- A season row with zero turnovers but nonzero field-goal attempts and
nonzero true-shooting attempts. -/
def zeroTurnoverTotals : SeasonTotals :=
  ⟨82, 3960, 3000, 7000, 3/7, 1000, 3000, 1/3, 2000, 4000, 1/2,
    1250, 2000, 5/8, 1000, 3000, 4000, 2000, 600, 400, 0, 1500, 8250⟩

/-- A season row with zero field-goal attempts but nonzero free-throw
attempts, hence nonzero true-shooting attempts. -/
def zeroFgaTotals : SeasonTotals :=
  ⟨82, 3960, 0, 0, 0, 0, 0, 0, 0, 0, 0,
    1250, 2000, 5/8, 1000, 3000, 4000, 2000, 600, 400, 500, 1500, 1250⟩

/-- The estimated-possessions formula exactly as the spec's metric table
words it: `0.5 × [(FGA + 0.4×FTA − 1.07×(OffReb/(OffReb+OppDefReb))×(FGA−FG)
+ TO) + (mirror expression using opponent totals)]`, rounded to 3 decimal
places, each side of the sum using the other side's rebounds in its
denominator. Stated for comparison with `calculatePossessions`. -/
def specEstimatedPossessions (t o : SeasonTotals) : ℚ :=
  round3 (0.5 *
    ((t.fieldGoalAttempts + 0.4 * t.freeThrowAttempts
        - 1.07 * (t.offensiveRebounds
            / (t.offensiveRebounds + o.defensiveRebounds))
          * (t.fieldGoalAttempts - t.fieldGoals)
        + t.turnovers)
      + (o.fieldGoalAttempts + 0.4 * o.freeThrowAttempts
        - 1.07 * (o.offensiveRebounds
            / (o.offensiveRebounds + t.defensiveRebounds))
          * (o.fieldGoalAttempts - o.fieldGoals)
        + o.turnovers)))

/-- Rounding to three decimal places is idempotent. -/
theorem round3_idem (x : ℚ) : round3 (round3 x) = round3 x := by
  unfold round3
  rw [div_mul_cancel₀]
  · rw [round_intCast]
  · norm_num

/-- A successfully computed offensive rating is a fixed point of `round3`:
it is the already-3-dp-rounded published value. -/
theorem offensiveRating_isRounded (t o : SeasonTotals) (x : ℚ)
    (h : calculateOffensiveRating t o = some x) : round3 x = x := by
  unfold calculateOffensiveRating at h
  rcases h1 : calculatePossessions t o with _ | p
  · rw [h1] at h; simp at h
  rw [h1] at h
  simp only [Option.bind_eq_bind, Option.some_bind] at h
  rcases h2 : checkedDiv t.points p with _ | q
  · rw [h2] at h; simp at h
  rw [h2] at h
  simp at h
  rw [← h, round3_idem]

/-- A successfully computed defensive rating is a fixed point of `round3`. -/
theorem defensiveRating_isRounded (t o : SeasonTotals) (y : ℚ)
    (h : calculateDefensiveRating t o = some y) : round3 y = y := by
  unfold calculateDefensiveRating at h
  rcases h1 : calculateOpponentPossessions t o with _ | p
  · rw [h1] at h; simp at h
  rw [h1] at h
  simp only [Option.bind_eq_bind, Option.some_bind] at h
  rcases h2 : checkedDiv o.points p with _ | q
  · rw [h2] at h; simp at h
  rw [h2] at h
  simp at h
  rw [← h, round3_idem]

/-- C1: for every SeasonTotals pair, the published Net Rating is
`round3` of the difference of the two already-3-dp-rounded ratings: the
subtraction operates on the published (rounded) ORtg and DRtg, and the
result is rounded to 3 decimal places again. -/
theorem netRating_subtracts_rounded_ratings (t o : SeasonTotals) (r : ℚ)
    (h : calculateNetRating t o = some r) :
    ∃ x y, calculateOffensiveRating t o = some x ∧
      calculateDefensiveRating t o = some y ∧
      round3 x = x ∧ round3 y = y ∧ r = round3 (x - y) := by
  unfold calculateNetRating at h
  rcases h1 : calculateOffensiveRating t o with _ | x <;> rw [h1] at h
  · simp at h
  rcases h2 : calculateDefensiveRating t o with _ | y <;> rw [h2] at h
  · simp at h
  simp at h
  exact ⟨x, y, rfl, rfl, offensiveRating_isRounded t o x h1,
    defensiveRating_isRounded t o y h2, h.symm⟩

/-- C1 witness: the representative 82-game pair computes a net rating of
`3.206`, the rounded difference of the published `105.792` and `102.586`. -/
theorem netRating_subtracts_rounded_ratings_witness :
    ∃ x y, calculateOffensiveRating exampleTeamTotals exampleOpponentTotals
        = some x ∧
      calculateDefensiveRating exampleTeamTotals exampleOpponentTotals
        = some y ∧
      round3 x = x ∧ round3 y = y ∧ (1603/500 : ℚ) = round3 (x - y) :=
  netRating_subtracts_rounded_ratings exampleTeamTotals exampleOpponentTotals
    (1603/500)
    (by norm_num [calculateNetRating, calculateOffensiveRating,
      calculateDefensiveRating, calculatePossessions,
      calculateOpponentPossessions, checkedDiv, round3, round_eq,
      exampleTeamTotals, exampleOpponentTotals])

/-- C2 counterexample: with zero turnovers (but 7000 field-goal attempts)
the Turnover% computation succeeds while Assist/Turnover raises even though
true-shooting attempts are 7880, and with zero field-goal attempts (but
2000 free-throw attempts) True-Shooting% succeeds — refuting the spec's
pairing of the three zero-denominator conditions. -/
theorem division_errors_pairing_counterexample :
    zeroTurnoverTotals.turnovers = 0 ∧
    (calculateTurnoverPercentage zeroTurnoverTotals).isSome = true ∧
    calculateTrueShootingAttempts zeroTurnoverTotals ≠ 0 ∧
    calculateAssistToTurnover zeroTurnoverTotals = none ∧
    zeroFgaTotals.fieldGoalAttempts = 0 ∧
    (calculateTrueShootingPercentage zeroFgaTotals).isSome = true := by
  refine ⟨rfl, ?_, ?_, ?_, rfl, ?_⟩
  · norm_num [calculateTurnoverPercentage, checkedDiv, zeroTurnoverTotals]
  · norm_num [calculateTrueShootingAttempts, round3, round_eq,
      zeroTurnoverTotals]
  · norm_num [calculateAssistToTurnover, checkedDiv, zeroTurnoverTotals]
  · norm_num [calculateTrueShootingPercentage,
      calculateTrueShootingAttempts, checkedDiv, round3, round_eq,
      zeroFgaTotals]

/-- C2 (code behaviour): each fallible calculator raises exactly when its
own denominator is zero: Assist/Turnover when turnovers are zero,
True-Shooting% when the (rounded) true-shooting attempts are zero, and
Turnover% when `FGA + 0.44·FTA + TOV` is zero. -/
theorem division_errors_characterized (t : SeasonTotals) :
    (calculateAssistToTurnover t = none ↔ t.turnovers = 0) ∧
    (calculateTrueShootingPercentage t = none ↔
      calculateTrueShootingAttempts t = 0) ∧
    (calculateTurnoverPercentage t = none ↔
      t.fieldGoalAttempts + 0.44 * t.freeThrowAttempts + t.turnovers = 0) := by
  refine ⟨?_, ?_, ?_⟩
  · by_cases h : t.turnovers = 0 <;>
      simp [calculateAssistToTurnover, checkedDiv, h]
  · by_cases h : calculateTrueShootingAttempts t = 0 <;>
      simp [calculateTrueShootingPercentage, checkedDiv, h]
  · by_cases h : t.fieldGoalAttempts + 0.44 * t.freeThrowAttempts
        + t.turnovers = 0 <;>
      simp [calculateTurnoverPercentage, checkedDiv, h]

/-- C8: with nonzero rebound denominators, the team's estimated
possessions are exactly the spec's formula rounded to 3 decimal places. -/
theorem possessions_match_spec_formula (t o : SeasonTotals)
    (h1 : t.offensiveRebounds + o.defensiveRebounds ≠ 0)
    (h2 : o.offensiveRebounds + t.defensiveRebounds ≠ 0) :
    calculatePossessions t o = some (specEstimatedPossessions t o) := by
  simp [calculatePossessions, checkedDiv, h1, h2, specEstimatedPossessions]

/-- C8 witness: the representative pair has nonzero rebound denominators
and its possessions equal the spec formula's value there. -/
theorem possessions_match_spec_formula_witness :
    calculatePossessions exampleTeamTotals exampleOpponentTotals
      = some (specEstimatedPossessions exampleTeamTotals
          exampleOpponentTotals) :=
  possessions_match_spec_formula exampleTeamTotals exampleOpponentTotals
    (by norm_num [exampleTeamTotals, exampleOpponentTotals])
    (by norm_num [exampleTeamTotals, exampleOpponentTotals])

/-- C10: with nonzero rebound denominators, team and opponent estimated
possessions coincide — the two computations sum the identical sub-terms in
swapped order, so ORtg and DRtg share the same denominator. -/
theorem possessions_eq_opponentPossessions (t o : SeasonTotals)
    (h1 : t.offensiveRebounds + o.defensiveRebounds ≠ 0)
    (h2 : o.offensiveRebounds + t.defensiveRebounds ≠ 0) :
    calculatePossessions t o = calculateOpponentPossessions t o := by
  simp only [calculatePossessions, calculateOpponentPossessions,
    checkedDiv, if_neg h1, if_neg h2, Option.some_bind,
    Option.bind_eq_bind, Option.some.injEq, pure]
  congr 1
  ring

/-- C10 witness: team and opponent possessions agree on the
representative pair. -/
theorem possessions_eq_opponentPossessions_witness :
    calculatePossessions exampleTeamTotals exampleOpponentTotals
      = calculateOpponentPossessions exampleTeamTotals
          exampleOpponentTotals :=
  possessions_eq_opponentPossessions exampleTeamTotals exampleOpponentTotals
    (by norm_num [exampleTeamTotals, exampleOpponentTotals])
    (by norm_num [exampleTeamTotals, exampleOpponentTotals])

/-- The output record of one fixture line (`FixtureSet.__format_fixtures`,
data-retrieval/fixture_set.py): the seven dictionary entries, all strings
as in the source. -/
structure Fixture where
  date : String
  tipOffTime : String
  awayTeam : String
  awayPts : String
  homeTeam : String
  homePts : String
  attendance : String
deriving DecidableEq

/-- First words that may start a three-word franchise name
(`three_names`, fixture_set.py line 142). -/
def threeNames : List String :=
  ["Los", "Golden", "New", "Oklahoma", "Portland", "San"]

/-- Last words that confirm a three-word franchise name
(`last_words`, fixture_set.py lines 143-152). -/
def lastWords : List String :=
  ["Clippers", "Lakers", "Warriors", "Pelicans", "Knicks", "Thunder",
    "Blazers", "Spurs"]

/-- The unconditional base dictionary of `__format_fixtures`
(fixture_set.py lines 154-162): tokens 1-11 laid out as the two-word /
two-word with-attendance variant. Fails (IndexError) when the list has
fewer than 12 tokens. -/
def baseAssembly (fixtureItems : List String) : Option Fixture := do
  let v1 ← fixtureItems[1]?
  let v2 ← fixtureItems[2]?
  let v3 ← fixtureItems[3]?
  let v4 ← fixtureItems[4]?
  let v5 ← fixtureItems[5]?
  let v6 ← fixtureItems[6]?
  let v7 ← fixtureItems[7]?
  let v8 ← fixtureItems[8]?
  let v9 ← fixtureItems[9]?
  let v10 ← fixtureItems[10]?
  let v11 ← fixtureItems[11]?
  pure ⟨v1 ++ " " ++ v2 ++ " " ++ v3, v4, v5 ++ " " ++ v6, v7,
    v8 ++ " " ++ v9, v10, v11⟩

/-- Model of `FixtureSet.__format_fixtures` (fixture_set.py lines 140-251): build
the base dictionary from tokens 1-11, then apply the two 14-token
overrides and the 17/16/15-token if/elif chain. -/
def formatFixtures (fixtureItems : List String) : Option Fixture := do
  let v5 ← fixtureItems[5]?
  let v6 ← fixtureItems[6]?
  let v7 ← fixtureItems[7]?
  let v8 ← fixtureItems[8]?
  let v9 ← fixtureItems[9]?
  let v10 ← fixtureItems[10]?
  let v11 ← fixtureItems[11]?
  let base ← baseAssembly fixtureItems
  let d1 : Fixture ←
    if fixtureItems.length = 14 ∧ v7 ∈ lastWords then
      pure ⟨base.date, base.tipOffTime, v5 ++ " " ++ v6 ++ " " ++ v7, v8,
        v9 ++ " " ++ v10, v11, "0"⟩
    else
      pure base
  let d2 : Fixture ←
    if fixtureItems.length = 14 ∧ v7 ∈ lastWords ∧ v11 ∈ lastWords then do
      let v12 ← fixtureItems[12]?
      let v13 ← fixtureItems[13]?
      pure ⟨d1.date, d1.tipOffTime, v5 ++ " " ++ v6 ++ " " ++ v7, v8,
        v9 ++ " " ++ v10 ++ " " ++ v11, v12, v13⟩
    else
      pure d1
  if fixtureItems.length = 17 then do
    let v12 ← fixtureItems[12]?
    let v13 ← fixtureItems[13]?
    pure ⟨d2.date, d2.tipOffTime, v5 ++ " " ++ v6 ++ " " ++ v7, v8,
      v9 ++ " " ++ v10 ++ " " ++ v11, v12, v13⟩
  else if fixtureItems.length = 16 ∧ v5 ∈ threeNames then
    if v9 ∈ threeNames then do
      let v12 ← fixtureItems[12]?
      let v13 ← fixtureItems[13]?
      pure ⟨d2.date, d2.tipOffTime, v5 ++ " " ++ v6 ++ " " ++ v7, v8,
        v9 ++ " " ++ v10 ++ " " ++ v11, v12, v13⟩
    else do
      let v12 ← fixtureItems[12]?
      pure ⟨d2.date, d2.tipOffTime, v5 ++ " " ++ v6 ++ " " ++ v7, v8,
        v9 ++ " " ++ v10, v11, v12⟩
  else if fixtureItems.length = 16 ∧ v5 ∉ threeNames then do
    let v12 ← fixtureItems[12]?
    pure ⟨d2.date, d2.tipOffTime, v5 ++ " " ++ v6, v7,
      v8 ++ " " ++ v9 ++ " " ++ v10, v11, v12⟩
  else if fixtureItems.length = 15 ∧ v5 ∈ threeNames then do
    let v12 ← fixtureItems[12]?
    pure ⟨d2.date, d2.tipOffTime, v5 ++ " " ++ v6 ++ " " ++ v7, v8,
      v9 ++ " " ++ v10, v11, v12⟩
  else if fixtureItems.length = 15 ∧ v5 ∉ threeNames then
    if v8 ∈ threeNames then do
      let v12 ← fixtureItems[12]?
      pure ⟨d2.date, d2.tipOffTime, v5 ++ " " ++ v6, v7,
        v8 ++ " " ++ v9 ++ " " ++ v10, v11, v12⟩
    else
      pure ⟨d2.date, d2.tipOffTime, v5 ++ " " ++ v6, v7,
        v8 ++ " " ++ v9, v10, v11⟩
  else
    pure d2

/-- Accessing token 11 fails on any row of fewer than 12 tokens, so the
assembler reports the malformed row instead of building a record. -/
theorem formatFixtures_none_of_short (items : List String)
    (h : items.length < 12) : formatFixtures items = none := by
  rcases items with _ | ⟨a0, items⟩
  · rfl
  rcases items with _ | ⟨a1, items⟩
  · rfl
  rcases items with _ | ⟨a2, items⟩
  · rfl
  rcases items with _ | ⟨a3, items⟩
  · rfl
  rcases items with _ | ⟨a4, items⟩
  · rfl
  rcases items with _ | ⟨a5, items⟩
  · rfl
  rcases items with _ | ⟨a6, items⟩
  · rfl
  rcases items with _ | ⟨a7, items⟩
  · rfl
  rcases items with _ | ⟨a8, items⟩
  · rfl
  rcases items with _ | ⟨a9, items⟩
  · rfl
  rcases items with _ | ⟨a10, items⟩
  · rfl
  rcases items with _ | ⟨a11, items⟩
  · rfl
  simp at h
  omega

/-- On any row of at least 12 tokens the assembler always produces a
record: no length ever reaches a failing token access. -/
theorem formatFixtures_isSome_of_long (items : List String)
    (h : 12 ≤ items.length) : (formatFixtures items).isSome = true := by
  rcases items with _ | ⟨a0, items⟩
  · simp at h
  rcases items with _ | ⟨a1, items⟩
  · simp at h
  rcases items with _ | ⟨a2, items⟩
  · simp at h
  rcases items with _ | ⟨a3, items⟩
  · simp at h
  rcases items with _ | ⟨a4, items⟩
  · simp at h
  rcases items with _ | ⟨a5, items⟩
  · simp at h
  rcases items with _ | ⟨a6, items⟩
  · simp at h
  rcases items with _ | ⟨a7, items⟩
  · simp at h
  rcases items with _ | ⟨a8, items⟩
  · simp at h
  rcases items with _ | ⟨a9, items⟩
  · simp at h
  rcases items with _ | ⟨a10, items⟩
  · simp at h
  rcases items with _ | ⟨a11, items⟩
  · simp at h
  rcases items with _ | ⟨b0, items⟩
  · simp [formatFixtures, baseAssembly]
  rcases items with _ | ⟨b1, items⟩
  · simp [formatFixtures, baseAssembly]
  rcases items with _ | ⟨b2, items⟩
  · by_cases h7 : a7 ∈ lastWords <;> by_cases h11 : a11 ∈ lastWords <;>
      simp [formatFixtures, baseAssembly, h7, h11]
  rcases items with _ | ⟨b3, items⟩
  · by_cases h5 : a5 ∈ threeNames <;> by_cases h8 : a8 ∈ threeNames <;>
      simp [formatFixtures, baseAssembly, h5, h8]
  rcases items with _ | ⟨b4, items⟩
  · by_cases h5 : a5 ∈ threeNames <;> by_cases h9 : a9 ∈ threeNames <;>
      simp [formatFixtures, baseAssembly, h5, h9]
  rcases items with _ | ⟨b5, items⟩
  · simp [formatFixtures, baseAssembly]
  have h14 : ¬ (a0::a1::a2::a3::a4::a5::a6::a7::a8::a9::a10::a11::b0::b1::
      b2::b3::b4::b5::items).length = 14 := by simp
  have h15 : ¬ (a0::a1::a2::a3::a4::a5::a6::a7::a8::a9::a10::a11::b0::b1::
      b2::b3::b4::b5::items).length = 15 := by simp
  have h16 : ¬ (a0::a1::a2::a3::a4::a5::a6::a7::a8::a9::a10::a11::b0::b1::
      b2::b3::b4::b5::items).length = 16 := by simp
  have h17 : ¬ (a0::a1::a2::a3::a4::a5::a6::a7::a8::a9::a10::a11::b0::b1::
      b2::b3::b4::b5::items).length = 17 := by simp
  simp [formatFixtures, baseAssembly, h14, h15, h16, h17]

/-- On a row of at least 12 tokens whose count matches no layout variant
(neither 14 nor 15 nor 16 nor 17) every override condition is false, so
the assembler silently returns the base two-word layout record. -/
theorem formatFixtures_base_of_unmatched (items : List String)
    (hlong : 12 ≤ items.length)
    (h14 : items.length ≠ 14) (h15 : items.length ≠ 15)
    (h16 : items.length ≠ 16) (h17 : items.length ≠ 17) :
    formatFixtures items = baseAssembly items := by
  rcases items with _ | ⟨a0, items⟩
  · simp at hlong
  rcases items with _ | ⟨a1, items⟩
  · simp at hlong
  rcases items with _ | ⟨a2, items⟩
  · simp at hlong
  rcases items with _ | ⟨a3, items⟩
  · simp at hlong
  rcases items with _ | ⟨a4, items⟩
  · simp at hlong
  rcases items with _ | ⟨a5, items⟩
  · simp at hlong
  rcases items with _ | ⟨a6, items⟩
  · simp at hlong
  rcases items with _ | ⟨a7, items⟩
  · simp at hlong
  rcases items with _ | ⟨a8, items⟩
  · simp at hlong
  rcases items with _ | ⟨a9, items⟩
  · simp at hlong
  rcases items with _ | ⟨a10, items⟩
  · simp at hlong
  rcases items with _ | ⟨a11, items⟩
  · simp at hlong
  rcases items with _ | ⟨b0, items⟩
  · simp [formatFixtures, baseAssembly]
  rcases items with _ | ⟨b1, items⟩
  · simp [formatFixtures, baseAssembly]
  rcases items with _ | ⟨b2, items⟩
  · simp at h14
  rcases items with _ | ⟨b3, items⟩
  · simp at h15
  rcases items with _ | ⟨b4, items⟩
  · simp at h16
  rcases items with _ | ⟨b5, items⟩
  · simp at h17
  have k14 : ¬ (a0::a1::a2::a3::a4::a5::a6::a7::a8::a9::a10::a11::b0::b1::
      b2::b3::b4::b5::items).length = 14 := by simp
  have k15 : ¬ (a0::a1::a2::a3::a4::a5::a6::a7::a8::a9::a10::a11::b0::b1::
      b2::b3::b4::b5::items).length = 15 := by simp
  have k16 : ¬ (a0::a1::a2::a3::a4::a5::a6::a7::a8::a9::a10::a11::b0::b1::
      b2::b3::b4::b5::items).length = 16 := by simp
  have k17 : ¬ (a0::a1::a2::a3::a4::a5::a6::a7::a8::a9::a10::a11::b0::b1::
      b2::b3::b4::b5::items).length = 17 := by simp
  simp [formatFixtures, baseAssembly, k14, k15, k16, k17]

/-- C3 amended: the Field Assembler raises a fatal error exactly for
filtered token lists of fewer than 12 tokens; for any other length that
matches no layout variant (13 tokens, or 18 and more) it silently returns
the base two-word layout record built from tokens 1-11 instead of
reporting an error. -/
theorem assembler_fatal_only_below_minimum (fixtureItems : List String) :
    (formatFixtures fixtureItems = none ↔ fixtureItems.length < 12) ∧
    (12 ≤ fixtureItems.length → fixtureItems.length ≠ 14 →
      fixtureItems.length ≠ 15 → fixtureItems.length ≠ 16 →
      fixtureItems.length ≠ 17 →
      formatFixtures fixtureItems = baseAssembly fixtureItems) := by
  constructor
  · constructor
    · intro hnone
      by_contra hlt
      have hlong := formatFixtures_isSome_of_long fixtureItems (by omega)
      rw [hnone] at hlong
      simp at hlong
    · exact formatFixtures_none_of_short fixtureItems
  · exact formatFixtures_base_of_unmatched fixtureItems

/-- A 13-token filtered row: its count matches no layout variant. -/
def thirteenTokenRow : List String :=
  ["Sat", "Oct", "21", "2023", "7:30p", "Miami", "Heat", "101",
    "Boston", "Celtics", "99", "18997", "Extra"]

/-- C3 counterexample: the 13-token row matches no layout variant, yet the
assembler produces a record instead of reporting a fatal error. -/
theorem malformed_row_not_fatal_counterexample :
    thirteenTokenRow.length = 13 ∧
    (formatFixtures thirteenTokenRow).isSome = true := by
  constructor
  · rfl
  · rfl

/-- C3 amended witness: at the concrete 13-token row the amended claim
yields the base-layout record without an error. -/
theorem assembler_fatal_only_below_minimum_witness :
    formatFixtures thirteenTokenRow = baseAssembly thirteenTokenRow :=
  (assembler_fatal_only_below_minimum thirteenTokenRow).2
    (by decide) (by decide) (by decide) (by decide) (by decide)

/-- C4 amended: on a 14-token row whose token 7 is a three-word-name
confirmer and whose token 11 is not, the record has the three-word away
team from tokens 5-7, away points from token 8, the two-word home team
from tokens 9-10, home points from token 11, and the attendance
sentinel "0". (When token 11 is also a confirmer, the second override
assigns attendance from token 13 instead — see the counterexample.) -/
theorem no_attendance_three_word_away
    (a0 a1 a2 a3 a4 a5 a6 a7 a8 a9 a10 a11 b0 b1 : String)
    (h7 : a7 ∈ lastWords) (h11 : a11 ∉ lastWords) :
    formatFixtures [a0, a1, a2, a3, a4, a5, a6, a7, a8, a9, a10, a11,
        b0, b1]
      = some ⟨a1 ++ " " ++ a2 ++ " " ++ a3, a4,
          a5 ++ " " ++ a6 ++ " " ++ a7, a8, a9 ++ " " ++ a10, a11, "0"⟩ := by
  simp [formatFixtures, baseAssembly, h7, h11]

/-- A 14-token row whose tokens 7 and 11 are both three-word-name
confirmers: Los Angeles Lakers at San Antonio Spurs with a reported
attendance. -/
def bothConfirmersRow : List String :=
  ["Sat", "Oct", "21", "2023", "7:30p", "Los", "Angeles", "Lakers",
    "110", "San", "Antonio", "Spurs", "102", "19000"]

/-- C4 counterexample: a 14-token row with token 7 in the confirmer set
can report attendance "19000" rather than the sentinel "0", because token
11 is also a confirmer and the second override fires. -/
theorem no_attendance_sentinel_counterexample :
    bothConfirmersRow.length = 14 ∧
    bothConfirmersRow[7]? = some "Lakers" ∧
    "Lakers" ∈ lastWords ∧
    (formatFixtures bothConfirmersRow).map Fixture.attendance
      = some "19000" := by
  refine ⟨rfl, rfl, by decide, rfl⟩

/-- C4 amended witness: a concrete 14-token Lakers row with a
non-confirmer token 11 yields the sentinel record. -/
theorem no_attendance_three_word_away_witness :
    formatFixtures ["Sat", "Oct", "21", "2023", "7:30p", "Los", "Angeles",
        "Lakers", "110", "Miami", "Heat", "102", "Extra1", "Extra2"]
      = some ⟨"Oct" ++ " " ++ "21" ++ " " ++ "2023", "7:30p",
          "Los" ++ " " ++ "Angeles" ++ " " ++ "Lakers", "110",
          "Miami" ++ " " ++ "Heat", "102", "0"⟩ :=
  no_attendance_three_word_away "Sat" "Oct" "21" "2023" "7:30p" "Los"
    "Angeles" "Lakers" "110" "Miami" "Heat" "102" "Extra1" "Extra2"
    (by decide) (by decide)

/-- C5 amended: for a 15-token row the classifier content-tests the away
start token 5 and, when that fails, content-tests the home start token 8
before assigning the home team three words; for a 16-token row it
content-tests token 5 and, when that succeeds, token 9 for the home name,
but when the token-5 test fails it assigns the home team three words from
tokens 8-10 without any content test. -/
theorem single_three_word_classifier
    (a0 a1 a2 a3 a4 a5 a6 a7 a8 a9 a10 a11 b0 b1 b2 b3 : String) :
    (a5 ∈ threeNames →
      formatFixtures [a0, a1, a2, a3, a4, a5, a6, a7, a8, a9, a10, a11,
          b0, b1, b2]
        = some ⟨a1 ++ " " ++ a2 ++ " " ++ a3, a4,
            a5 ++ " " ++ a6 ++ " " ++ a7, a8, a9 ++ " " ++ a10, a11, b0⟩) ∧
    (a5 ∉ threeNames → a8 ∈ threeNames →
      formatFixtures [a0, a1, a2, a3, a4, a5, a6, a7, a8, a9, a10, a11,
          b0, b1, b2]
        = some ⟨a1 ++ " " ++ a2 ++ " " ++ a3, a4, a5 ++ " " ++ a6, a7,
            a8 ++ " " ++ a9 ++ " " ++ a10, a11, b0⟩) ∧
    (a5 ∉ threeNames → a8 ∉ threeNames →
      formatFixtures [a0, a1, a2, a3, a4, a5, a6, a7, a8, a9, a10, a11,
          b0, b1, b2]
        = some ⟨a1 ++ " " ++ a2 ++ " " ++ a3, a4, a5 ++ " " ++ a6, a7,
            a8 ++ " " ++ a9, a10, a11⟩) ∧
    (a5 ∈ threeNames → a9 ∈ threeNames →
      formatFixtures [a0, a1, a2, a3, a4, a5, a6, a7, a8, a9, a10, a11,
          b0, b1, b2, b3]
        = some ⟨a1 ++ " " ++ a2 ++ " " ++ a3, a4,
            a5 ++ " " ++ a6 ++ " " ++ a7, a8,
            a9 ++ " " ++ a10 ++ " " ++ a11, b0, b1⟩) ∧
    (a5 ∈ threeNames → a9 ∉ threeNames →
      formatFixtures [a0, a1, a2, a3, a4, a5, a6, a7, a8, a9, a10, a11,
          b0, b1, b2, b3]
        = some ⟨a1 ++ " " ++ a2 ++ " " ++ a3, a4,
            a5 ++ " " ++ a6 ++ " " ++ a7, a8, a9 ++ " " ++ a10, a11, b0⟩) ∧
    (a5 ∉ threeNames →
      formatFixtures [a0, a1, a2, a3, a4, a5, a6, a7, a8, a9, a10, a11,
          b0, b1, b2, b3]
        = some ⟨a1 ++ " " ++ a2 ++ " " ++ a3, a4, a5 ++ " " ++ a6, a7,
            a8 ++ " " ++ a9 ++ " " ++ a10, a11, b0⟩) := by
  refine ⟨?_, ?_, ?_, ?_, ?_, ?_⟩
  · intro h5
    simp [formatFixtures, baseAssembly, h5]
  · intro h5 h8
    simp [formatFixtures, baseAssembly, h5, h8]
  · intro h5 h8
    simp [formatFixtures, baseAssembly, h5, h8]
  · intro h5 h9
    simp [formatFixtures, baseAssembly, h5, h9]
  · intro h5 h9
    simp [formatFixtures, baseAssembly, h5, h9]
  · intro h5
    simp [formatFixtures, baseAssembly, h5]

/-- A 16-token row whose away start token 5 ("Miami") and home start
token 8 ("Boston") are both outside the may-start-three-word-name set. -/
def sixteenTokenPlainStartsRow : List String :=
  ["Sat", "Oct", "21", "2023", "7:30p", "Miami", "Heat", "101",
    "Boston", "Celtics", "Garden", "99", "18997", "Fill1", "Fill2",
    "Fill3"]

/-- C5 counterexample: on a 16-token row whose away-name start token
fails the content test, the home team is assigned three words from tokens
8-10 even though its own start token also fails the content test. -/
theorem home_three_words_without_test_counterexample :
    sixteenTokenPlainStartsRow.length = 16 ∧
    sixteenTokenPlainStartsRow[5]? = some "Miami" ∧
    "Miami" ∉ threeNames ∧
    sixteenTokenPlainStartsRow[8]? = some "Boston" ∧
    "Boston" ∉ threeNames ∧
    (formatFixtures sixteenTokenPlainStartsRow).map Fixture.homeTeam
      = some "Boston Celtics Garden" := by
  refine ⟨rfl, rfl, by decide, rfl, by decide, rfl⟩

/-- C5 amended witness: concrete rows exercise the 15-token two-stage
content test. -/
theorem single_three_word_classifier_witness :
    formatFixtures ["Sat", "Oct", "21", "2023", "7:30p", "Miami", "Heat",
        "101", "Oklahoma", "City", "Thunder", "99", "18997", "Fill1",
        "Fill2"]
      = some ⟨"Oct" ++ " " ++ "21" ++ " " ++ "2023", "7:30p",
          "Miami" ++ " " ++ "Heat", "101",
          "Oklahoma" ++ " " ++ "City" ++ " " ++ "Thunder", "99",
          "18997"⟩ :=
  ((single_three_word_classifier "Sat" "Oct" "21" "2023" "7:30p" "Miami"
      "Heat" "101" "Oklahoma" "City" "Thunder" "99" "18997" "Fill1"
      "Fill2" "unused").2.1) (by decide) (by decide)

/-- Helper for `pySplit`: walk the characters, accumulating the current
token in reverse; whitespace ends a token and empty pieces are dropped. -/
def splitWhitespaceAux : List Char → List Char → List String
  | [], acc => if acc.isEmpty then [] else [String.mk acc.reverse]
  | c :: cs, acc =>
    if c.isWhitespace then
      if acc.isEmpty then splitWhitespaceAux cs []
      else String.mk acc.reverse :: splitWhitespaceAux cs []
    else splitWhitespaceAux cs (c :: acc)

/-- Python's `str.split()` with no argument: split on runs of whitespace,
producing only the non-empty pieces. -/
def pySplit (line : String) : List String :=
  splitWhitespaceAux line.data []

/-- Model of `FixtureSet.__remove_unnecessary_headings` (fixture_set.py lines
66-81): drop the noise columns. -/
def removeUnnecessaryHeadings (headings : List String) : List String :=
  headings.filter fun heading =>
    heading != "(ET)" && heading != "Notes" && heading != "Arena"

/-- Model of `FixtureSet.__revise_heading_names` (fixture_set.py lines 83-112):
six sequential in-place conditional renames; each index access can raise
on a too-short heading list. -/
def reviseHeadingNames (headings : List String) : Option (List String) := do
  let h1 ← headings[1]?
  let s1 := if h1 = "Start" then headings.set 1 "Tip-Off Time" else headings
  let h2 ← s1[2]?
  let s2 := if h2 = "Visitor/Neutral" then s1.set 2 "Away Team" else s1
  let h3 ← s2[3]?
  let s3 := if h3 = "PTS" then s2.set 3 "Away PTS" else s2
  let h4 ← s3[4]?
  let s4 := if h4 = "Home/Neutral" then s3.set 4 "Home Team" else s3
  let h5 ← s4[5]?
  let s5 := if h5 = "PTS" then s4.set 5 "Home PTS" else s4
  let h6 ← s5[6]?
  pure (if h6 = "Attend." then s5.set 6 "Attendance" else s5)

/-- Model of `FixtureSet.__create_headings` (fixture_set.py lines 53-64). -/
def createHeadings (headingRow : String) : Option (List String) :=
  reviseHeadingNames (removeUnnecessaryHeadings (pySplit headingRow))

/-- C6: when the condensed heading list carries the six expected source
headings at indices 1-6, the normalizer renames exactly those six
positions and leaves every other heading, and the order, unchanged. -/
theorem heading_normalizer_renames (headings condensed : List String)
    (hc : removeUnnecessaryHeadings headings = condensed)
    (h1 : condensed[1]? = some "Start")
    (h2 : condensed[2]? = some "Visitor/Neutral")
    (h3 : condensed[3]? = some "PTS")
    (h4 : condensed[4]? = some "Home/Neutral")
    (h5 : condensed[5]? = some "PTS")
    (h6 : condensed[6]? = some "Attend.") :
    reviseHeadingNames (removeUnnecessaryHeadings headings)
      = some ((((((condensed.set 1 "Tip-Off Time").set 2
          "Away Team").set 3 "Away PTS").set 4 "Home Team").set 5
          "Home PTS").set 6 "Attendance") ∧
    ∀ i : ℕ, i ≠ 1 → i ≠ 2 → i ≠ 3 → i ≠ 4 → i ≠ 5 → i ≠ 6 →
      ((((((condensed.set 1 "Tip-Off Time").set 2 "Away Team").set 3
          "Away PTS").set 4 "Home Team").set 5 "Home PTS").set 6
          "Attendance")[i]? = condensed[i]? := by
  subst hc
  constructor
  · simp [reviseHeadingNames, h1, h2, h3, h4, h5, h6]
  · intro i k1 k2 k3 k4 k5 k6
    rw [List.getElem?_set_ne (by omega), List.getElem?_set_ne (by omega),
      List.getElem?_set_ne (by omega), List.getElem?_set_ne (by omega),
      List.getElem?_set_ne (by omega), List.getElem?_set_ne (by omega)]

/-- C6 witness: the real source header, with its noise columns, is
condensed and renamed as expected. -/
theorem heading_normalizer_renames_witness :
    reviseHeadingNames (removeUnnecessaryHeadings ["Date", "Start",
        "(ET)", "Visitor/Neutral", "PTS", "Home/Neutral", "PTS",
        "Attend.", "Arena", "Notes"])
      = some (((((((["Date", "Start", "Visitor/Neutral", "PTS",
          "Home/Neutral", "PTS", "Attend."] : List String).set 1
          "Tip-Off Time").set 2 "Away Team").set 3 "Away PTS").set 4
          "Home Team").set 5 "Home PTS").set 6 "Attendance") ∧
    ∀ i : ℕ, i ≠ 1 → i ≠ 2 → i ≠ 3 → i ≠ 4 → i ≠ 5 → i ≠ 6 →
      (((((((["Date", "Start", "Visitor/Neutral", "PTS", "Home/Neutral",
          "PTS", "Attend."] : List String).set 1 "Tip-Off Time").set 2
          "Away Team").set 3 "Away PTS").set 4 "Home Team").set 5
          "Home PTS").set 6 "Attendance")[i]?
        = (["Date", "Start", "Visitor/Neutral", "PTS", "Home/Neutral",
          "PTS", "Attend."] : List String)[i]? :=
  heading_normalizer_renames ["Date", "Start", "(ET)", "Visitor/Neutral",
    "PTS", "Home/Neutral", "PTS", "Attend.", "Arena", "Notes"]
    ["Date", "Start", "Visitor/Neutral", "PTS", "Home/Neutral", "PTS",
    "Attend."] (by decide) rfl rfl rfl rfl rfl rfl

/-- The noise-token filter of `FixtureSet.__create_row` (fixture_set.py
lines 126-136): overtime markers, the neutral-site marker and the
box-score link label are removed before positional interpretation. -/
def filterNoiseTokens (tokens : List String) : List String :=
  tokens.filter fun value =>
    value != "OT" && value != "2OT" && value != "3OT" && value != "4OT" &&
      value != "(IV)" && value != "Box" && value != "Score"

/-- Model of `FixtureSet.__create_row` (fixture_set.py lines 114-138): tokenize,
filter noise, assemble. -/
def createRow (fixture : String) : Option Fixture :=
  formatFixtures (filterNoiseTokens (pySplit fixture))

/-- The loop of `FixtureSet.__populate_dataframe` (fixture_set.py lines
261-263): one record per line, skipping lines whose first four characters
are the literal "Date"; a failing line aborts the batch. -/
def populateRows : List String → Option (List Fixture)
  | [] => some []
  | row :: rest =>
    if row.take 4 = "Date" then populateRows rest
    else do
      let record ← createRow row
      let records ← populateRows rest
      pure (record :: records)

/-- Model of `FixtureSet.__populate_dataframe` (fixture_set.py lines 253-263):
`data.pop(0)` drops the header line, then the loop runs over the rest. -/
def populateDataframe (data : List String) : Option (List Fixture) :=
  populateRows data.tail

/-- The loop pairs each kept line with its record, in order: the records
of a successful run are exactly the images of the non-header lines. -/
theorem populateRows_forall₂ (rows : List String) (records : List Fixture)
    (h : populateRows rows = some records) :
    List.Forall₂ (fun row record => createRow row = some record)
      (rows.filter (fun row => row.take 4 != "Date")) records := by
  induction rows generalizing records with
  | nil =>
    simp [populateRows] at h
    simp [← h]
  | cons row rest ih =>
    by_cases hd : row.take 4 = "Date"
    · rw [populateRows, if_pos hd] at h
      simpa [List.filter_cons, hd] using ih records h
    · rw [populateRows, if_neg hd] at h
      rcases hr : createRow row with _ | record
      · rw [hr] at h; simp at h
      rw [hr] at h
      simp only [Option.bind_eq_bind, Option.some_bind] at h
      rcases hs : populateRows rest with _ | records'
      · rw [hs] at h; simp at h
      rw [hs] at h
      simp at h
      rw [← h]
      have hcons : List.Forall₂ (fun row record => createRow row = some record)
          (row :: rest.filter (fun row => row.take 4 != "Date"))
          (record :: records') :=
        List.Forall₂.cons hr (ih records' hs)
      simpa [List.filter_cons, hd] using hcons

/-- C7: on a successful run the parser keeps, in source order, exactly the
lines after the popped header whose first four characters are not the
literal "Date", and produces one record per kept line, each record the
image of its line. -/
theorem parser_drops_headers_preserves_order (lines : List String)
    (records : List Fixture) (h : populateDataframe lines = some records) :
    List.Forall₂ (fun row record => createRow row = some record)
      (lines.tail.filter (fun row => row.take 4 != "Date")) records ∧
    records.length
      = (lines.tail.filter (fun row => row.take 4 != "Date")).length ∧
    (lines.tail.filter (fun row => row.take 4 != "Date")).Sublist
      lines.tail ∧
    ∀ row ∈ lines.tail,
      (row ∈ lines.tail.filter (fun row => row.take 4 != "Date")
        ↔ row.take 4 ≠ "Date") := by
  have hf := populateRows_forall₂ lines.tail records h
  refine ⟨hf, (List.Forall₂.length_eq hf).symm, List.filter_sublist _, ?_⟩
  intro row hrow
  simp [List.mem_filter, hrow]

/-- A header line, one data line and one repeated header line, as the
scraper delivers them. -/
def exampleRawLines : List String :=
  ["Date Start (ET) Visitor/Neutral PTS Home/Neutral PTS Attend. Arena Notes",
    "Sat Oct 21 2023 7:30p Boston Celtics 119 Miami Heat 107 19842",
    "Date Start (ET) Visitor/Neutral PTS Home/Neutral PTS Attend. Arena Notes"]

/-- C7 witness: on the concrete three-line input the repeated header is
dropped and the single data line yields its record, in order. -/
theorem parser_drops_headers_preserves_order_witness :
    List.Forall₂ (fun row record => createRow row = some record)
      (exampleRawLines.tail.filter (fun row => row.take 4 != "Date"))
      [⟨"Oct 21 2023", "7:30p", "Boston Celtics", "119", "Miami Heat",
        "107", "19842"⟩] ∧
    ([⟨"Oct 21 2023", "7:30p", "Boston Celtics", "119", "Miami Heat",
        "107", "19842"⟩] : List Fixture).length
      = (exampleRawLines.tail.filter
          (fun row => row.take 4 != "Date")).length ∧
    (exampleRawLines.tail.filter
      (fun row => row.take 4 != "Date")).Sublist exampleRawLines.tail ∧
    ∀ row ∈ exampleRawLines.tail,
      (row ∈ exampleRawLines.tail.filter (fun row => row.take 4 != "Date")
        ↔ row.take 4 ≠ "Date") :=
  parser_drops_headers_preserves_order exampleRawLines
    [⟨"Oct 21 2023", "7:30p", "Boston Celtics", "119", "Miami Heat",
      "107", "19842"⟩] (by decide)

/-- Model of `SeasonStatistics.__format_decimals` (both revisions of
season_statistics.py): walk the raw statistic values in order, prepending
"0" to any value whose first character is "."; indexing `statistic[0]`
raises on an empty value. -/
def formatDecimals : List String → Option (List String)
  | [] => some []
  | statistic :: rest =>
    match statistic.data.head? with
    | none => none
    | some c =>
      (formatDecimals rest).map fun formatted =>
        (if c = '.' then "0" ++ statistic else statistic) :: formatted

/-- The per-value leading-zero repair: prepend "0" exactly when the first
character is ".". -/
def repairLeadingZero (statistic : String) : String :=
  if statistic.data.head? = some '.' then "0" ++ statistic else statistic

/-- C9: on non-empty raw values the repair returns the same-length,
same-order list in which exactly the "."-initial values gain a leading
"0" and all others are unchanged. -/
theorem format_decimals_repairs_in_place (values : List String)
    (h : ∀ s ∈ values, s ≠ "") :
    formatDecimals values = some (values.map repairLeadingZero) := by
  induction values with
  | nil => rfl
  | cons s rest ih =>
    have hs : s.data ≠ [] := by
      intro hdata
      refine h s (by simp) ?_
      cases s with
      | mk data =>
        simp only at hdata
        simp [hdata]
    rw [formatDecimals]
    cases hd : s.data.head? with
    | none =>
      rw [List.head?_eq_none_iff] at hd
      exact absurd hd hs
    | some c =>
      rw [ih (fun t ht => h t (by simp [ht]))]
      simp [repairLeadingZero, hd]

/-- C9 witness: a concrete row with one ".xxx" value, one integer value
and one already-prefixed decimal. -/
theorem format_decimals_repairs_in_place_witness :
    formatDecimals [".512", "82", "0.4"]
      = some (([".512", "82", "0.4"] : List String).map
          repairLeadingZero) :=
  format_decimals_repairs_in_place [".512", "82", "0.4"] (by decide)
